import Mathlib

/-! Shallow embedding of the `virustotal3.enterprise` module
(file `src/virustotal3/enterprise.py`).

Each Python function or method is translated into a Lean function.  The HTTP
transport (the `requests` library) is modelled as an explicit function argument
from requests to transport results, so every wrapper returns the list of
requests it issued together with its observable outcome (normal return value,
uncaught exception, or process exit from the `except` branch). -/

/-- JSON values, as handled by Python's `json` module for the API payloads. -/
inductive Json where
  | null
  | bool (b : Bool)
  | num (n : Int)
  | str (s : String)
  | arr (items : List Json)
  | obj (entries : List (String × Json))
deriving Inhabited

/-- Lowercase hexadecimal digit, as used by Python's `\uXXXX` escapes. -/
def hexDigit (n : Nat) : Char :=
  if n < 10 then Char.ofNat (48 + n) else Char.ofNat (87 + n)

/-- Uppercase hexadecimal digit, as used by percent-encoding. -/
def hexUpper (n : Nat) : Char :=
  if n < 10 then Char.ofNat (48 + n) else Char.ofNat (55 + n)

/-- Four lowercase hex digits. -/
def hex4 (n : Nat) : String :=
  String.mk [hexDigit (n / 4096 % 16), hexDigit (n / 256 % 16),
             hexDigit (n / 16 % 16), hexDigit (n % 16)]

/-- Escape one character the way Python's `json.dumps` (with its default
`ensure_ascii=True`) does. -/
def escapeJsonChar (c : Char) : String :=
  if c = '"' then "\\\""
  else if c = '\\' then "\\\\"
  else if c = '\n' then "\\n"
  else if c = '\r' then "\\r"
  else if c = '\t' then "\\t"
  else if c.toNat = 8 then "\\b"
  else if c.toNat = 12 then "\\f"
  else if c.toNat < 32 ∨ (127 ≤ c.toNat ∧ c.toNat < 65536) then "\\u" ++ hex4 c.toNat
  else if 65536 ≤ c.toNat then
    "\\u" ++ hex4 (55296 + (c.toNat - 65536) / 1024)
      ++ "\\u" ++ hex4 (56320 + (c.toNat - 65536) % 1024)
  else String.singleton c

/-- A JSON string literal with Python's escaping. -/
def quoteJsonString (s : String) : String :=
  "\"" ++ String.join (s.toList.map escapeJsonChar) ++ "\""

/-- Indentation: `n` spaces. -/
def spaces (n : Nat) : String :=
  String.mk (List.replicate n ' ')

/-- Insert one key-value pair into a key-sorted entry list (stable ascending
insertion, matching Python's stable sort). -/
def insertPair (p : String × Json) : List (String × Json) → List (String × Json)
  | [] => [p]
  | q :: qs => if p.1 < q.1 then p :: q :: qs else q :: insertPair p qs

/-- Sort an object's entries by key, as `sort_keys=True` does. -/
def sortPairs : List (String × Json) → List (String × Json)
  | [] => []
  | p :: ps => insertPair p (sortPairs ps)

mutual

/-- Recursively sort every object's keys: the effect of `sort_keys=True` at
every nesting level of `json.dumps`. -/
def sortDeep : Json → Json
  | .null => .null
  | .bool b => .bool b
  | .num n => .num n
  | .str s => .str s
  | .arr items => .arr (sortDeepList items)
  | .obj entries => .obj (sortPairs (sortDeepEntries entries))

/-- Apply `sortDeep` to every element of an array. -/
def sortDeepList : List Json → List Json
  | [] => []
  | x :: xs => sortDeep x :: sortDeepList xs

/-- Apply `sortDeep` to every value of an object. -/
def sortDeepEntries : List (String × Json) → List (String × Json)
  | [] => []
  | (k, v) :: rest => (k, sortDeep v) :: sortDeepEntries rest

end

mutual

/-- Render a JSON value the way `json.dumps(value, indent=4)` lays it out
(for already key-sorted values; see `Json.dumps`). -/
def renderJson : Json → Nat → String
  | .null, _ => "null"
  | .bool true, _ => "true"
  | .bool false, _ => "false"
  | .num n, _ => toString n
  | .str s, _ => quoteJsonString s
  | .arr [], _ => "[]"
  | .arr (x :: xs), lvl =>
      "[\n" ++ renderItems (x :: xs) (lvl + 1) ++ "\n" ++ spaces (lvl * 4) ++ "]"
  | .obj [], _ => "\x7b\x7d"
  | .obj (e :: es), lvl =>
      "\x7b\n" ++ renderEntries (e :: es) (lvl + 1) ++ "\n" ++ spaces (lvl * 4) ++ "\x7d"

/-- Render array items, one per line, separated by commas. -/
def renderItems : List Json → Nat → String
  | [], _ => ""
  | [x], lvl => spaces (lvl * 4) ++ renderJson x lvl
  | x :: y :: ys, lvl =>
      spaces (lvl * 4) ++ renderJson x lvl ++ ",\n" ++ renderItems (y :: ys) lvl

/-- Render object entries, one per line, separated by commas. -/
def renderEntries : List (String × Json) → Nat → String
  | [], _ => ""
  | [(k, v)], lvl => spaces (lvl * 4) ++ quoteJsonString k ++ ": " ++ renderJson v lvl
  | (k, v) :: f :: fs, lvl =>
      spaces (lvl * 4) ++ quoteJsonString k ++ ": " ++ renderJson v lvl
        ++ ",\n" ++ renderEntries (f :: fs) lvl

end

/-- Embedding of `json.dumps(value, indent=4, sort_keys=True)`: the
serialization every JSON-returning wrapper applies to the response payload. -/
def Json.dumps (j : Json) : String :=
  renderJson (sortDeep j) 0

mutual

/-- Render with Python's default separators and insertion order, as
`json.dumps(value)` does when serializing request bodies. -/
def renderDefault : Json → String
  | .null => "null"
  | .bool true => "true"
  | .bool false => "false"
  | .num n => toString n
  | .str s => quoteJsonString s
  | .arr [] => "[]"
  | .arr (x :: xs) => "[" ++ renderDefaultItems (x :: xs) ++ "]"
  | .obj [] => "\x7b\x7d"
  | .obj (e :: es) => "\x7b" ++ renderDefaultEntries (e :: es) ++ "\x7d"

/-- Compact rendering of array items. -/
def renderDefaultItems : List Json → String
  | [] => ""
  | [x] => renderDefault x
  | x :: y :: ys => renderDefault x ++ ", " ++ renderDefaultItems (y :: ys)

/-- Compact rendering of object entries. -/
def renderDefaultEntries : List (String × Json) → String
  | [] => ""
  | [(k, v)] => quoteJsonString k ++ ": " ++ renderDefault v
  | (k, v) :: f :: fs =>
      quoteJsonString k ++ ": " ++ renderDefault v ++ ", " ++ renderDefaultEntries (f :: fs)

end

/-- Embedding of `json.dumps(value)` with all defaults. -/
def Json.dumpsDefault (j : Json) : String :=
  renderDefault j

/-- Proxy configuration: a scheme-to-proxy-URL mapping. -/
abbrev Proxies := List (String × String)

/-- HTTP method of a request issued through `requests`. -/
inductive Method where
  | get
  | post
  | patch
  | delete
deriving DecidableEq

/-- An outgoing HTTP request as handed to the transport. -/
structure Request where
  method : Method
  url : String
  params : List (String × String)
  headers : List (String × Option String)
  body : Option String
  proxies : Option Proxies
deriving DecidableEq

/-- A transport-level response (a mocked `requests.Response`): status code,
raw body text, parsed JSON payload, and raw body bytes. -/
structure HttpResponse where
  status_code : Nat
  text : String
  json : Json
  content : List Nat

/-- Result of one transport call: a response, or a network-level failure
(`requests.exceptions.RequestException`). -/
inductive TransportResult where
  | ok (resp : HttpResponse)
  | netError (msg : String)

/-- File-handle side effects performed while streaming a download to disk. -/
inductive FileEvent where
  | write (chunk : List Nat)
  | flush
deriving DecidableEq

/-- Observable outcome of one wrapper call: a normal return value (`none` is
Python's `None`), a file written to disk, an uncaught exception carrying its
message, or a process exit from the `except` branch. -/
inductive Outcome where
  | ret (value : Option String)
  | wrote (path : String) (events : List FileEvent)
  | raised (msg : String)
  | exited (code : Nat)
deriving DecidableEq

/-- Models the `requests` library's encoding of a `params` dict: parameters
whose value is `None` are omitted from the outgoing request. -/
def encodeParams : List (String × Option String) → List (String × String)
  | [] => []
  | (_, none) :: rest => encodeParams rest
  | (k, some v) :: rest => (k, v) :: encodeParams rest

/-- Models `response.iter_content(chunk_size=1024)` over a fully buffered body:
successive 1024-byte chunks, the last one possibly shorter. -/
def iterContent : List Nat → List (List Nat)
  | [] => []
  | b :: rest => ((b :: rest).take 1024) :: iterContent ((b :: rest).drop 1024)
termination_by l => l.length
decreasing_by simp [List.length_drop]; omega

/-- The download loop of `ZipFiles.get_zip`: write each truthy (non-empty)
chunk and flush after each write. -/
def zipEvents : List (List Nat) → List FileEvent
  | [] => []
  | c :: cs =>
    if c.isEmpty then zipEvents cs
    else FileEvent.write c :: FileEvent.flush :: zipEvents cs

/-- Bytes a sequence of file events writes to the file, in order. -/
def writtenBytes (evs : List FileEvent) : List Nat :=
  (evs.filterMap fun e =>
    match e with
    | FileEvent.write c => some c
    | FileEvent.flush => none).flatten

/-- Every write is immediately followed by a flush. -/
def wellFlushed : List FileEvent → Bool
  | [] => true
  | FileEvent.write _ :: FileEvent.flush :: rest => wellFlushed rest
  | _ => false

/-- Keys of the query parameters across a list of issued requests. -/
def reqKeys (rs : List Request) : List String :=
  (rs.map fun r => r.params.map Prod.fst).flatten

/-- Percent-encoding of a path segment, following the specification's wording
that a resource ID is URL-escaped when it contains reserved characters. -/
def specUrlEscape (s : String) : String :=
  String.join (s.toList.map fun c =>
    if c.isAlphanum ∨ c = '-' ∨ c = '.' ∨ c = '_' ∨ c = '~' then String.singleton c
    else "%" ++ String.mk [hexUpper (c.toNat / 16 % 16), hexUpper (c.toNat % 16)])

/-- Session state shared by the class-based wrappers: the attributes set in
each `__init__` (`api_key`, `base_url`, `headers`, `proxies`). -/
structure Session where
  api_key : Option String
  base_url : String
  headers : List (String × Option String)
  proxies : Option Proxies
deriving DecidableEq

/-- Embedding of the module-level `search` function.  The `api_key is None`
check raises before any request is issued; on a 200 response the source
computes `json.dumps(response.json(), indent=4, sort_keys=True)` but has no
`return` statement, so the function returns Python `None`. -/
def search (api_key : Option String) (query : String)
    (order limit cursor descriptors_only : Option String)
    (proxies : Option Proxies) (transport : Request → TransportResult) :
    List Request × Outcome :=
  match api_key with
  | none => ([], Outcome.raised "You must provide a valid API key")
  | some key =>
    let req : Request :=
      { method := Method.get,
        url := "https://www.virustotal.com/api/v3/intelligence/search",
        params := encodeParams [("query", some query), ("order", order),
                                ("limit", limit), ("cursor", cursor),
                                ("descriptors_only", descriptors_only)],
        headers := [("x-apikey", some key), ("Accept", some "application/json")],
        body := none,
        proxies := proxies }
    let outcome : Outcome :=
      match transport req with
      | TransportResult.netError _ => Outcome.exited 1
      | TransportResult.ok resp =>
        if resp.status_code ≠ 200 then Outcome.raised resp.text
        else
          let _ := Json.dumps resp.json
          Outcome.ret none
    ([req], outcome)

/-- Embedding of the module-level `file_feed` function.  As in the source, no
`proxies` argument is passed to `requests.get`, and the `json.dumps` result is
not returned. -/
def file_feed (api_key : Option String) (time : String)
    (transport : Request → TransportResult) : List Request × Outcome :=
  match api_key with
  | none => ([], Outcome.raised "You must provide a valid API key")
  | some key =>
    let req : Request :=
      { method := Method.get,
        url := "https://www.virustotal.com/api/v3/feeds/files/" ++ time,
        params := [],
        headers := [("x-apikey", some key), ("Accept", some "application/json")],
        body := none,
        proxies := none }
    let outcome : Outcome :=
      match transport req with
      | TransportResult.netError _ => Outcome.exited 1
      | TransportResult.ok resp =>
        if resp.status_code ≠ 200 then Outcome.raised resp.text
        else
          let _ := Json.dumps resp.json
          Outcome.ret none
    ([req], outcome)

namespace Livehunt

/-- Embedding of `Livehunt.__init__`: sets the attributes, then raises when
`api_key is None`. -/
def init (api_key : Option String) (proxies : Option Proxies) : Except String Session :=
  let s : Session :=
    { api_key := api_key,
      base_url := "https://www.virustotal.com/api/v3/intelligence",
      headers := [("x-apikey", api_key), ("Accept", some "application/json")],
      proxies := proxies }
  match api_key with
  | none => Except.error "You must provide a valid API key"
  | some _ => Except.ok s

/-- Embedding of `Livehunt.get_rulesets`.  `if ruleset_id:` is Python
truthiness, so an empty-string ID also takes the collection branch. -/
def get_rulesets (s : Session) (ruleset_id limit fltr order cursor : Option String)
    (transport : Request → TransportResult) : List Request × Outcome :=
  let req : Request :=
    match ruleset_id with
    | some rid =>
      if rid = "" then
        { method := Method.get,
          url := s.base_url ++ "/hunting_rulesets",
          params := encodeParams [("limit", limit), ("fltr", fltr),
                                  ("order", order), ("cursor", cursor)],
          headers := s.headers, body := none, proxies := s.proxies }
      else
        { method := Method.get,
          url := s.base_url ++ "/hunting_rulesets/" ++ rid,
          params := encodeParams [("id", some rid)],
          headers := s.headers, body := none, proxies := s.proxies }
    | none =>
      { method := Method.get,
        url := s.base_url ++ "/hunting_rulesets",
        params := encodeParams [("limit", limit), ("fltr", fltr),
                                ("order", order), ("cursor", cursor)],
        headers := s.headers, body := none, proxies := s.proxies }
  let outcome : Outcome :=
    match transport req with
    | TransportResult.netError _ => Outcome.exited 1
    | TransportResult.ok resp =>
      if resp.status_code ≠ 200 then Outcome.raised resp.text
      else Outcome.ret (some (Json.dumps resp.json))
  ([req], outcome)

/-- Embedding of `Livehunt.create_rulset` (name kept as in the source). -/
def create_rulset (s : Session) (data : Json)
    (transport : Request → TransportResult) : List Request × Outcome :=
  let req : Request :=
    { method := Method.post,
      url := s.base_url ++ "/hunting_rulesets",
      params := [],
      headers := s.headers,
      body := some (Json.dumpsDefault data),
      proxies := s.proxies }
  let outcome : Outcome :=
    match transport req with
    | TransportResult.netError _ => Outcome.exited 1
    | TransportResult.ok resp =>
      if resp.status_code ≠ 200 then Outcome.raised resp.text
      else Outcome.ret (some (Json.dumps resp.json))
  ([req], outcome)

/-- Embedding of `Livehunt.update_ruleset`. -/
def update_ruleset (s : Session) (ruleset_id : String) (data : Json)
    (transport : Request → TransportResult) : List Request × Outcome :=
  let req : Request :=
    { method := Method.patch,
      url := s.base_url ++ "/hunting_rulesets/" ++ ruleset_id,
      params := [],
      headers := s.headers,
      body := some (Json.dumpsDefault data),
      proxies := s.proxies }
  let outcome : Outcome :=
    match transport req with
    | TransportResult.netError _ => Outcome.exited 1
    | TransportResult.ok resp =>
      if resp.status_code ≠ 200 then Outcome.raised resp.text
      else Outcome.ret (some (Json.dumps resp.json))
  ([req], outcome)

/-- Embedding of `Livehunt.delete_ruleset`. -/
def delete_ruleset (s : Session) (ruleset_id : String)
    (transport : Request → TransportResult) : List Request × Outcome :=
  let req : Request :=
    { method := Method.delete,
      url := s.base_url ++ "/hunting_rulesets/" ++ ruleset_id,
      params := [],
      headers := s.headers, body := none, proxies := s.proxies }
  let outcome : Outcome :=
    match transport req with
    | TransportResult.netError _ => Outcome.exited 1
    | TransportResult.ok resp =>
      if resp.status_code ≠ 200 then Outcome.raised resp.text
      else Outcome.ret none
  ([req], outcome)

/-- Embedding of `Livehunt.get_notifications`.  In the source, the single-ID
branch passes no `proxies` argument, and the collection branch builds a params
dict (`limit`, `fltr`, `cursor`) but does not pass it to `requests.get`. -/
def get_notifications (s : Session) (notification_id limit fltr cursor : Option String)
    (transport : Request → TransportResult) : List Request × Outcome :=
  let req : Request :=
    match notification_id with
    | some nid =>
      if nid = "" then
        { method := Method.get,
          url := s.base_url ++ "/hunting_notifications",
          params := [],
          headers := s.headers, body := none, proxies := s.proxies }
      else
        { method := Method.get,
          url := s.base_url ++ "/hunting_notifications/" ++ nid,
          params := encodeParams [("id", some nid)],
          headers := s.headers, body := none, proxies := none }
    | none =>
      let _unused := [("limit", limit), ("fltr", fltr), ("cursor", cursor)]
      { method := Method.get,
        url := s.base_url ++ "/hunting_notifications",
        params := [],
        headers := s.headers, body := none, proxies := s.proxies }
  let outcome : Outcome :=
    match transport req with
    | TransportResult.netError _ => Outcome.exited 1
    | TransportResult.ok resp =>
      if resp.status_code ≠ 200 then Outcome.raised resp.text
      else Outcome.ret (some (Json.dumps resp.json))
  ([req], outcome)

/-- Embedding of `Livehunt.delete_notifications` (delete by tag). -/
def delete_notifications (s : Session) (tag : String)
    (transport : Request → TransportResult) : List Request × Outcome :=
  let req : Request :=
    { method := Method.delete,
      url := s.base_url ++ "/hunting_notifications",
      params := encodeParams [("tag", some tag)],
      headers := s.headers, body := none, proxies := s.proxies }
  let outcome : Outcome :=
    match transport req with
    | TransportResult.netError _ => Outcome.exited 1
    | TransportResult.ok resp =>
      if resp.status_code ≠ 200 then Outcome.raised resp.text
      else Outcome.ret none
  ([req], outcome)

/-- Embedding of `Livehunt.delete_notification` (delete by ID). -/
def delete_notification (s : Session) (notification_id : String)
    (transport : Request → TransportResult) : List Request × Outcome :=
  let req : Request :=
    { method := Method.delete,
      url := s.base_url ++ "/hunting_notifications",
      params := encodeParams [("id", some notification_id)],
      headers := s.headers, body := none, proxies := s.proxies }
  let outcome : Outcome :=
    match transport req with
    | TransportResult.netError _ => Outcome.exited 1
    | TransportResult.ok resp =>
      if resp.status_code ≠ 200 then Outcome.raised resp.text
      else Outcome.ret none
  ([req], outcome)

/-- Embedding of `Livehunt.get_notification_files`. -/
def get_notification_files (s : Session) (limit cursor : Option String)
    (transport : Request → TransportResult) : List Request × Outcome :=
  let req : Request :=
    { method := Method.get,
      url := s.base_url ++ "/hunting_notification_files",
      params := encodeParams [("limit", limit), ("cursor", cursor)],
      headers := s.headers, body := none, proxies := s.proxies }
  let outcome : Outcome :=
    match transport req with
    | TransportResult.netError _ => Outcome.exited 1
    | TransportResult.ok resp =>
      if resp.status_code ≠ 200 then Outcome.raised resp.text
      else Outcome.ret (some (Json.dumps resp.json))
  ([req], outcome)

end Livehunt

namespace Retrohunt

/-- Embedding of `Retrohunt.__init__`: sets the attributes and, unlike
`Livehunt.__init__`, performs no API-key check, so it never fails. -/
def init (api_key : Option String) (proxies : Option Proxies) : Except String Session :=
  let s : Session :=
    { api_key := api_key,
      base_url := "https://www.virustotal.com/api/v3/intelligence",
      headers := [("x-apikey", api_key), ("Accept", some "application/json")],
      proxies := proxies }
  Except.ok s

/-- Embedding of `Retrohunt.get_jobs`.  Note the capital R in the
`Retrohunt_jobs` path segments, as written in the source. -/
def get_jobs (s : Session) (job_id limit fltr cursor : Option String)
    (transport : Request → TransportResult) : List Request × Outcome :=
  let req : Request :=
    match job_id with
    | some jid =>
      if jid = "" then
        { method := Method.get,
          url := s.base_url ++ "/Retrohunt_jobs",
          params := encodeParams [("limit", limit), ("fltr", fltr), ("cursor", cursor)],
          headers := s.headers, body := none, proxies := s.proxies }
      else
        { method := Method.get,
          url := s.base_url ++ "/Retrohunt_jobs/" ++ jid,
          params := encodeParams [("id", some jid)],
          headers := s.headers, body := none, proxies := s.proxies }
    | none =>
      { method := Method.get,
        url := s.base_url ++ "/Retrohunt_jobs",
        params := encodeParams [("limit", limit), ("fltr", fltr), ("cursor", cursor)],
        headers := s.headers, body := none, proxies := s.proxies }
  let outcome : Outcome :=
    match transport req with
    | TransportResult.netError _ => Outcome.exited 1
    | TransportResult.ok resp =>
      if resp.status_code ≠ 200 then Outcome.raised resp.text
      else Outcome.ret (some (Json.dumps resp.json))
  ([req], outcome)

/-- Embedding of `Retrohunt.create_job`. -/
def create_job (s : Session) (data : Json)
    (transport : Request → TransportResult) : List Request × Outcome :=
  let req : Request :=
    { method := Method.post,
      url := s.base_url ++ "/Retrohunt_jobs",
      params := [],
      headers := s.headers,
      body := some (Json.dumpsDefault data),
      proxies := s.proxies }
  let outcome : Outcome :=
    match transport req with
    | TransportResult.netError _ => Outcome.exited 1
    | TransportResult.ok resp =>
      if resp.status_code ≠ 200 then Outcome.raised resp.text
      else Outcome.ret (some (Json.dumps resp.json))
  ([req], outcome)

/-- Embedding of `Retrohunt.delete_job`. -/
def delete_job (s : Session) (job_id : String)
    (transport : Request → TransportResult) : List Request × Outcome :=
  let req : Request :=
    { method := Method.delete,
      url := s.base_url ++ "/Retrohunt_jobs/" ++ job_id,
      params := [],
      headers := s.headers, body := none, proxies := s.proxies }
  let outcome : Outcome :=
    match transport req with
    | TransportResult.netError _ => Outcome.exited 1
    | TransportResult.ok resp =>
      if resp.status_code ≠ 200 then Outcome.raised resp.text
      else Outcome.ret none
  ([req], outcome)

/-- Embedding of `Retrohunt.abort_job`. -/
def abort_job (s : Session) (job_id : String)
    (transport : Request → TransportResult) : List Request × Outcome :=
  let req : Request :=
    { method := Method.post,
      url := s.base_url ++ "/Retrohunt_jobs/" ++ job_id ++ "/abort",
      params := [],
      headers := s.headers, body := none, proxies := s.proxies }
  let outcome : Outcome :=
    match transport req with
    | TransportResult.netError _ => Outcome.exited 1
    | TransportResult.ok resp =>
      if resp.status_code ≠ 200 then Outcome.raised resp.text
      else Outcome.ret none
  ([req], outcome)

/-- Embedding of `Retrohunt.get_matching_files`. -/
def get_matching_files (s : Session) (job_id : String)
    (transport : Request → TransportResult) : List Request × Outcome :=
  let req : Request :=
    { method := Method.get,
      url := s.base_url ++ "/Retrohunt_jobs/" ++ job_id ++ "/matching_files",
      params := [],
      headers := s.headers, body := none, proxies := s.proxies }
  let outcome : Outcome :=
    match transport req with
    | TransportResult.netError _ => Outcome.exited 1
    | TransportResult.ok resp =>
      if resp.status_code ≠ 200 then Outcome.raised resp.text
      else Outcome.ret (some (Json.dumps resp.json))
  ([req], outcome)

end Retrohunt

namespace Accounts

/-- Embedding of `Accounts.__init__`: no API-key check, never fails. -/
def init (api_key : Option String) (proxies : Option Proxies) : Except String Session :=
  let s : Session :=
    { api_key := api_key,
      base_url := "https://www.virustotal.com/api/v3",
      headers := [("x-apikey", api_key), ("Accept", some "application/json")],
      proxies := proxies }
  Except.ok s

/-- Embedding of `Accounts.info_user`. -/
def info_user (s : Session) (user_id : String)
    (transport : Request → TransportResult) : List Request × Outcome :=
  let req : Request :=
    { method := Method.get,
      url := s.base_url ++ "/users/" ++ user_id,
      params := encodeParams [("id", some user_id)],
      headers := s.headers, body := none, proxies := s.proxies }
  let outcome : Outcome :=
    match transport req with
    | TransportResult.netError _ => Outcome.exited 1
    | TransportResult.ok resp =>
      if resp.status_code ≠ 200 then Outcome.raised resp.text
      else Outcome.ret (some (Json.dumps resp.json))
  ([req], outcome)

/-- Embedding of `Accounts.info_group`. -/
def info_group (s : Session) (group_id : String)
    (transport : Request → TransportResult) : List Request × Outcome :=
  let req : Request :=
    { method := Method.get,
      url := s.base_url ++ "/groups/" ++ group_id,
      params := [],
      headers := s.headers, body := none, proxies := s.proxies }
  let outcome : Outcome :=
    match transport req with
    | TransportResult.netError _ => Outcome.exited 1
    | TransportResult.ok resp =>
      if resp.status_code ≠ 200 then Outcome.raised resp.text
      else Outcome.ret (some (Json.dumps resp.json))
  ([req], outcome)

/-- Embedding of `Accounts.get_relationship`. -/
def get_relationship (s : Session) (group_id relationship : String)
    (limit cursor : Option String)
    (transport : Request → TransportResult) : List Request × Outcome :=
  let req : Request :=
    { method := Method.get,
      url := s.base_url ++ "/groups/" ++ group_id ++ "/relationships/" ++ relationship,
      params := encodeParams [("limit", limit), ("cursor", cursor)],
      headers := s.headers, body := none, proxies := s.proxies }
  let outcome : Outcome :=
    match transport req with
    | TransportResult.netError _ => Outcome.exited 1
    | TransportResult.ok resp =>
      if resp.status_code ≠ 200 then Outcome.raised resp.text
      else Outcome.ret (some (Json.dumps resp.json))
  ([req], outcome)

end Accounts

namespace ZipFiles

/-- Embedding of `ZipFiles.__init__`: no API-key check, never fails. -/
def init (api_key : Option String) (proxies : Option Proxies) : Except String Session :=
  let s : Session :=
    { api_key := api_key,
      base_url := "https://www.virustotal.com/api/v3/intelligence",
      headers := [("x-apikey", api_key), ("Accept", some "application/json")],
      proxies := proxies }
  Except.ok s

/-- Embedding of `ZipFiles.create_zip`. -/
def create_zip (s : Session) (data : Json)
    (transport : Request → TransportResult) : List Request × Outcome :=
  let req : Request :=
    { method := Method.post,
      url := s.base_url ++ "/zip_files",
      params := [],
      headers := s.headers,
      body := some (Json.dumpsDefault data),
      proxies := s.proxies }
  let outcome : Outcome :=
    match transport req with
    | TransportResult.netError _ => Outcome.exited 1
    | TransportResult.ok resp =>
      if resp.status_code ≠ 200 then Outcome.raised resp.text
      else Outcome.ret (some (Json.dumps resp.json))
  ([req], outcome)

/-- Embedding of `ZipFiles.info_zip`. -/
def info_zip (s : Session) (zip_id : String)
    (transport : Request → TransportResult) : List Request × Outcome :=
  let req : Request :=
    { method := Method.get,
      url := s.base_url ++ "/zip_files/" ++ zip_id,
      params := [],
      headers := s.headers, body := none, proxies := s.proxies }
  let outcome : Outcome :=
    match transport req with
    | TransportResult.netError _ => Outcome.exited 1
    | TransportResult.ok resp =>
      if resp.status_code ≠ 200 then Outcome.raised resp.text
      else Outcome.ret (some (Json.dumps resp.json))
  ([req], outcome)

/-- Embedding of `ZipFiles.get_url`. -/
def get_url (s : Session) (zip_id : String)
    (transport : Request → TransportResult) : List Request × Outcome :=
  let req : Request :=
    { method := Method.get,
      url := s.base_url ++ "/zip_files/" ++ zip_id ++ "/download_url",
      params := [],
      headers := s.headers, body := none, proxies := s.proxies }
  let outcome : Outcome :=
    match transport req with
    | TransportResult.netError _ => Outcome.exited 1
    | TransportResult.ok resp =>
      if resp.status_code ≠ 200 then Outcome.raised resp.text
      else Outcome.ret (some (Json.dumps resp.json))
  ([req], outcome)

/-- Embedding of `ZipFiles.get_zip`: downloads the archive and streams it to
`output_dir + zip_id + ".zip"` (string concatenation, no path separator),
writing non-empty 1024-byte chunks and flushing after each write. -/
def get_zip (s : Session) (zip_id output_dir : String)
    (transport : Request → TransportResult) : List Request × Outcome :=
  let req : Request :=
    { method := Method.get,
      url := s.base_url ++ "/zip_files/" ++ zip_id ++ "/download",
      params := [],
      headers := s.headers, body := none, proxies := s.proxies }
  let outcome : Outcome :=
    match transport req with
    | TransportResult.netError _ => Outcome.exited 1
    | TransportResult.ok resp =>
      if resp.status_code ≠ 200 then Outcome.raised resp.text
      else Outcome.wrote (output_dir ++ zip_id ++ ".zip") (zipEvents (iterContent resp.content))
  ([req], outcome)

end ZipFiles

/-- A mocked 200 response with a small JSON payload. -/
def resp200 : HttpResponse :=
  { status_code := 200, text := "", json := Json.obj [("data", Json.arr [])], content := [] }

/-- A transport that always answers with `resp200`. -/
def tr200 : Request → TransportResult := fun _ => TransportResult.ok resp200

/-- A mocked non-200 response. -/
def resp404 : HttpResponse :=
  { status_code := 404, text := "boom", json := Json.obj [], content := [] }

/-- A concrete Livehunt session, as produced by `Livehunt.init (some "k") none`. -/
def lhSession0 : Session :=
  { api_key := some "k",
    base_url := "https://www.virustotal.com/api/v3/intelligence",
    headers := [("x-apikey", some "k"), ("Accept", some "application/json")],
    proxies := none }

/-- A concrete Retrohunt session, as produced by `Retrohunt.init (some "k") none`. -/
def rhSession0 : Session :=
  { api_key := some "k",
    base_url := "https://www.virustotal.com/api/v3/intelligence",
    headers := [("x-apikey", some "k"), ("Accept", some "application/json")],
    proxies := none }

/-- A concrete ZipFiles session, as produced by `ZipFiles.init (some "k") none`. -/
def zfSession0 : Session :=
  { api_key := some "k",
    base_url := "https://www.virustotal.com/api/v3/intelligence",
    headers := [("x-apikey", some "k"), ("Accept", some "application/json")],
    proxies := none }

theorem iterContent_flatten (l : List Nat) : (iterContent l).flatten = l := by
  induction l using iterContent.induct with
  | case1 => simp [iterContent]
  | case2 b rest ih =>
    rw [iterContent]
    simp only [List.flatten_cons]
    rw [ih, List.take_append_drop]

theorem iterContent_chunks (l : List Nat) :
    ∀ c ∈ iterContent l, c.length ≤ 1024 ∧ c ≠ [] := by
  induction l using iterContent.induct with
  | case1 => simp [iterContent]
  | case2 b rest ih =>
    rw [iterContent]
    intro c hc
    rcases List.mem_cons.mp hc with hc | hc
    · subst hc
      refine ⟨List.length_take_le 1024 (b :: rest), ?_⟩
      have hpos : 0 < ((b :: rest).take 1024).length := by
        rw [List.length_take]
        simp
      exact List.length_pos.mp hpos
    · exact ih c hc

theorem writtenBytes_zipEvents (cs : List (List Nat)) :
    writtenBytes (zipEvents cs) = cs.flatten := by
  induction cs with
  | nil => rfl
  | cons c cs ih =>
    by_cases hc : c.isEmpty
    · have hce : c = [] := List.isEmpty_iff.mp hc
      simp [zipEvents, hc, hce, ih]
    · simp only [zipEvents, hc, if_false, Bool.false_eq_true]
      simp [writtenBytes, List.filterMap_cons] at ih ⊢
      exact ih

theorem wellFlushed_zipEvents (cs : List (List Nat)) :
    wellFlushed (zipEvents cs) = true := by
  induction cs with
  | nil => rfl
  | cons c cs ih =>
    by_cases hc : c.isEmpty <;> simp [zipEvents, hc, wellFlushed, ih]

/-- C1: the claim that every wrapper returns the 200-payload pretty-printed
with sorted keys fails for the module-level wrappers: at a mocked 200 response
`search` and `file_feed` return Python `None` (their `json.dumps` result is
computed but never returned, contradicting their own docstrings), while a class
method such as `Livehunt.get_rulesets` does return the sorted pretty-printed
payload. -/
theorem search_and_file_feed_discard_payload :
    (search (some "k") "q" none none none none none tr200).snd = Outcome.ret none
    ∧ (file_feed (some "k") "202001010802" tr200).snd = Outcome.ret none
    ∧ (Livehunt.get_rulesets lhSession0 none none none none none tr200).snd
        = Outcome.ret (some (Json.dumps resp200.json)) :=
  ⟨rfl, rfl, rfl⟩

/-- C2: for every wrapper, a mocked transport answering with any non-200
status makes the call raise an exception whose message is the verbatim
response body text; the `except` clause catches only
`requests.exceptions.RequestException`, so this exception always reaches the
caller. -/
theorem non200_raises_response_text (resp : HttpResponse) (h : resp.status_code ≠ 200) :
    (∀ key q o l c d p, (search (some key) q o l c d p (fun _ => TransportResult.ok resp)).snd = Outcome.raised resp.text)
    ∧ (∀ key t, (file_feed (some key) t (fun _ => TransportResult.ok resp)).snd = Outcome.raised resp.text)
    ∧ (∀ s rid l f o c, (Livehunt.get_rulesets s rid l f o c (fun _ => TransportResult.ok resp)).snd = Outcome.raised resp.text)
    ∧ (∀ s d, (Livehunt.create_rulset s d (fun _ => TransportResult.ok resp)).snd = Outcome.raised resp.text)
    ∧ (∀ s rid d, (Livehunt.update_ruleset s rid d (fun _ => TransportResult.ok resp)).snd = Outcome.raised resp.text)
    ∧ (∀ s rid, (Livehunt.delete_ruleset s rid (fun _ => TransportResult.ok resp)).snd = Outcome.raised resp.text)
    ∧ (∀ s nid l f c, (Livehunt.get_notifications s nid l f c (fun _ => TransportResult.ok resp)).snd = Outcome.raised resp.text)
    ∧ (∀ s tg, (Livehunt.delete_notifications s tg (fun _ => TransportResult.ok resp)).snd = Outcome.raised resp.text)
    ∧ (∀ s nid, (Livehunt.delete_notification s nid (fun _ => TransportResult.ok resp)).snd = Outcome.raised resp.text)
    ∧ (∀ s l c, (Livehunt.get_notification_files s l c (fun _ => TransportResult.ok resp)).snd = Outcome.raised resp.text)
    ∧ (∀ s jid l f c, (Retrohunt.get_jobs s jid l f c (fun _ => TransportResult.ok resp)).snd = Outcome.raised resp.text)
    ∧ (∀ s d, (Retrohunt.create_job s d (fun _ => TransportResult.ok resp)).snd = Outcome.raised resp.text)
    ∧ (∀ s jid, (Retrohunt.delete_job s jid (fun _ => TransportResult.ok resp)).snd = Outcome.raised resp.text)
    ∧ (∀ s jid, (Retrohunt.abort_job s jid (fun _ => TransportResult.ok resp)).snd = Outcome.raised resp.text)
    ∧ (∀ s jid, (Retrohunt.get_matching_files s jid (fun _ => TransportResult.ok resp)).snd = Outcome.raised resp.text)
    ∧ (∀ s uid, (Accounts.info_user s uid (fun _ => TransportResult.ok resp)).snd = Outcome.raised resp.text)
    ∧ (∀ s gid, (Accounts.info_group s gid (fun _ => TransportResult.ok resp)).snd = Outcome.raised resp.text)
    ∧ (∀ s gid rel l c, (Accounts.get_relationship s gid rel l c (fun _ => TransportResult.ok resp)).snd = Outcome.raised resp.text)
    ∧ (∀ s d, (ZipFiles.create_zip s d (fun _ => TransportResult.ok resp)).snd = Outcome.raised resp.text)
    ∧ (∀ s zid, (ZipFiles.info_zip s zid (fun _ => TransportResult.ok resp)).snd = Outcome.raised resp.text)
    ∧ (∀ s zid, (ZipFiles.get_url s zid (fun _ => TransportResult.ok resp)).snd = Outcome.raised resp.text)
    ∧ (∀ s zid od, (ZipFiles.get_zip s zid od (fun _ => TransportResult.ok resp)).snd = Outcome.raised resp.text) := by
  refine ⟨?_, ?_, ?_, ?_, ?_, ?_, ?_, ?_, ?_, ?_, ?_, ?_, ?_, ?_, ?_, ?_, ?_, ?_, ?_, ?_, ?_, ?_⟩ <;>
    intros <;>
    simp [search, file_feed, Livehunt.get_rulesets, Livehunt.create_rulset,
          Livehunt.update_ruleset, Livehunt.delete_ruleset, Livehunt.get_notifications,
          Livehunt.delete_notifications, Livehunt.delete_notification,
          Livehunt.get_notification_files, Retrohunt.get_jobs, Retrohunt.create_job,
          Retrohunt.delete_job, Retrohunt.abort_job, Retrohunt.get_matching_files,
          Accounts.info_user, Accounts.info_group, Accounts.get_relationship,
          ZipFiles.create_zip, ZipFiles.info_zip, ZipFiles.get_url, ZipFiles.get_zip, h]

/-- Witness for `non200_raises_response_text`: concrete 404 response with body
text `boom`. -/
theorem non200_raises_response_text_witness :
    (search (some "k") "q" none none none none none (fun _ => TransportResult.ok resp404)).snd
      = Outcome.raised "boom" :=
  (non200_raises_response_text resp404 (by decide)).1 "k" "q" none none none none none

/-- C3 (amended): with the API key absent, `search` and `file_feed` raise the
configuration error before any request is issued (empty request log), and
`Livehunt`'s constructor raises it; but the `Retrohunt`, `Accounts` and
`ZipFiles` constructors perform no key check and succeed with a `None` key. -/
theorem api_key_validation_sites :
    (∀ q o l c d p tr, search none q o l c d p tr
        = ([], Outcome.raised "You must provide a valid API key"))
    ∧ (∀ t tr, file_feed none t tr
        = ([], Outcome.raised "You must provide a valid API key"))
    ∧ (∀ p, Livehunt.init none p = Except.error "You must provide a valid API key")
    ∧ (∀ p, Retrohunt.init none p = Except.ok
        { api_key := none, base_url := "https://www.virustotal.com/api/v3/intelligence",
          headers := [("x-apikey", none), ("Accept", some "application/json")], proxies := p })
    ∧ (∀ p, Accounts.init none p = Except.ok
        { api_key := none, base_url := "https://www.virustotal.com/api/v3",
          headers := [("x-apikey", none), ("Accept", some "application/json")], proxies := p })
    ∧ (∀ p, ZipFiles.init none p = Except.ok
        { api_key := none, base_url := "https://www.virustotal.com/api/v3/intelligence",
          headers := [("x-apikey", none), ("Accept", some "application/json")], proxies := p }) :=
  ⟨fun _ _ _ _ _ _ _ => rfl, fun _ _ => rfl, fun _ => rfl,
   fun _ => rfl, fun _ => rfl, fun _ => rfl⟩

/-- C3 counterexample: constructing `Retrohunt`, `Accounts` or `ZipFiles` with
`api_key=None` raises nothing: each constructor returns a normal session whose
`api_key` is `None`. -/
theorem constructors_accept_missing_key :
    Retrohunt.init none none = Except.ok
      { api_key := none, base_url := "https://www.virustotal.com/api/v3/intelligence",
        headers := [("x-apikey", none), ("Accept", some "application/json")], proxies := none }
    ∧ Accounts.init none none = Except.ok
      { api_key := none, base_url := "https://www.virustotal.com/api/v3",
        headers := [("x-apikey", none), ("Accept", some "application/json")], proxies := none }
    ∧ ZipFiles.init none none = Except.ok
      { api_key := none, base_url := "https://www.virustotal.com/api/v3/intelligence",
        headers := [("x-apikey", none), ("Accept", some "application/json")], proxies := none } :=
  ⟨rfl, rfl, rfl⟩

/-- C4: for every wrapper taking optional query parameters, an argument left
as `None` never appears as a key of the outgoing request's query parameters
(the `requests` layer omits `None`-valued entries), whatever the other
arguments are. -/
theorem absent_params_omitted :
    (∀ key q l c d p tr, "order" ∉ reqKeys (search (some key) q none l c d p tr).fst)
    ∧ (∀ key q o c d p tr, "limit" ∉ reqKeys (search (some key) q o none c d p tr).fst)
    ∧ (∀ key q o l d p tr, "cursor" ∉ reqKeys (search (some key) q o l none d p tr).fst)
    ∧ (∀ key q o l c p tr, "descriptors_only" ∉ reqKeys (search (some key) q o l c none p tr).fst)
    ∧ (∀ s rid f o c tr, "limit" ∉ reqKeys (Livehunt.get_rulesets s rid none f o c tr).fst)
    ∧ (∀ s rid l o c tr, "fltr" ∉ reqKeys (Livehunt.get_rulesets s rid l none o c tr).fst)
    ∧ (∀ s rid l f c tr, "order" ∉ reqKeys (Livehunt.get_rulesets s rid l f none c tr).fst)
    ∧ (∀ s rid l f o tr, "cursor" ∉ reqKeys (Livehunt.get_rulesets s rid l f o none tr).fst)
    ∧ (∀ s nid f c tr, "limit" ∉ reqKeys (Livehunt.get_notifications s nid none f c tr).fst)
    ∧ (∀ s nid l c tr, "fltr" ∉ reqKeys (Livehunt.get_notifications s nid l none c tr).fst)
    ∧ (∀ s nid l f tr, "cursor" ∉ reqKeys (Livehunt.get_notifications s nid l f none tr).fst)
    ∧ (∀ s c tr, "limit" ∉ reqKeys (Livehunt.get_notification_files s none c tr).fst)
    ∧ (∀ s l tr, "cursor" ∉ reqKeys (Livehunt.get_notification_files s l none tr).fst)
    ∧ (∀ s jid f c tr, "limit" ∉ reqKeys (Retrohunt.get_jobs s jid none f c tr).fst)
    ∧ (∀ s jid l c tr, "fltr" ∉ reqKeys (Retrohunt.get_jobs s jid l none c tr).fst)
    ∧ (∀ s jid l f tr, "cursor" ∉ reqKeys (Retrohunt.get_jobs s jid l f none tr).fst)
    ∧ (∀ s gid rel c tr, "limit" ∉ reqKeys (Accounts.get_relationship s gid rel none c tr).fst)
    ∧ (∀ s gid rel l tr, "cursor" ∉ reqKeys (Accounts.get_relationship s gid rel l none tr).fst) := by
  refine ⟨?_, ?_, ?_, ?_, ?_, ?_, ?_, ?_, ?_, ?_, ?_, ?_, ?_, ?_, ?_, ?_, ?_, ?_⟩
  · intro key q l c d p tr
    rcases l with _ | lv <;> rcases c with _ | cv <;> rcases d with _ | dv <;>
      simp [search, reqKeys, encodeParams]
  · intro key q o c d p tr
    rcases o with _ | ov <;> rcases c with _ | cv <;> rcases d with _ | dv <;>
      simp [search, reqKeys, encodeParams]
  · intro key q o l d p tr
    rcases o with _ | ov <;> rcases l with _ | lv <;> rcases d with _ | dv <;>
      simp [search, reqKeys, encodeParams]
  · intro key q o l c p tr
    rcases o with _ | ov <;> rcases l with _ | lv <;> rcases c with _ | cv <;>
      simp [search, reqKeys, encodeParams]
  · intro s rid f o c tr
    rcases rid with _ | r
    · rcases f with _ | fv <;> rcases o with _ | ov <;> rcases c with _ | cv <;>
        simp [Livehunt.get_rulesets, reqKeys, encodeParams]
    · by_cases hr : r = "" <;>
        rcases f with _ | fv <;> rcases o with _ | ov <;> rcases c with _ | cv <;>
        simp [Livehunt.get_rulesets, reqKeys, encodeParams, hr]
  · intro s rid l o c tr
    rcases rid with _ | r
    · rcases l with _ | lv <;> rcases o with _ | ov <;> rcases c with _ | cv <;>
        simp [Livehunt.get_rulesets, reqKeys, encodeParams]
    · by_cases hr : r = "" <;>
        rcases l with _ | lv <;> rcases o with _ | ov <;> rcases c with _ | cv <;>
        simp [Livehunt.get_rulesets, reqKeys, encodeParams, hr]
  · intro s rid l f c tr
    rcases rid with _ | r
    · rcases l with _ | lv <;> rcases f with _ | fv <;> rcases c with _ | cv <;>
        simp [Livehunt.get_rulesets, reqKeys, encodeParams]
    · by_cases hr : r = "" <;>
        rcases l with _ | lv <;> rcases f with _ | fv <;> rcases c with _ | cv <;>
        simp [Livehunt.get_rulesets, reqKeys, encodeParams, hr]
  · intro s rid l f o tr
    rcases rid with _ | r
    · rcases l with _ | lv <;> rcases f with _ | fv <;> rcases o with _ | ov <;>
        simp [Livehunt.get_rulesets, reqKeys, encodeParams]
    · by_cases hr : r = "" <;>
        rcases l with _ | lv <;> rcases f with _ | fv <;> rcases o with _ | ov <;>
        simp [Livehunt.get_rulesets, reqKeys, encodeParams, hr]
  · intro s nid f c tr
    rcases nid with _ | n
    · simp [Livehunt.get_notifications, reqKeys, encodeParams]
    · by_cases hn : n = "" <;> simp [Livehunt.get_notifications, reqKeys, encodeParams, hn]
  · intro s nid l c tr
    rcases nid with _ | n
    · simp [Livehunt.get_notifications, reqKeys, encodeParams]
    · by_cases hn : n = "" <;> simp [Livehunt.get_notifications, reqKeys, encodeParams, hn]
  · intro s nid l f tr
    rcases nid with _ | n
    · simp [Livehunt.get_notifications, reqKeys, encodeParams]
    · by_cases hn : n = "" <;> simp [Livehunt.get_notifications, reqKeys, encodeParams, hn]
  · intro s c tr
    rcases c with _ | cv <;> simp [Livehunt.get_notification_files, reqKeys, encodeParams]
  · intro s l tr
    rcases l with _ | lv <;> simp [Livehunt.get_notification_files, reqKeys, encodeParams]
  · intro s jid f c tr
    rcases jid with _ | j
    · rcases f with _ | fv <;> rcases c with _ | cv <;>
        simp [Retrohunt.get_jobs, reqKeys, encodeParams]
    · by_cases hj : j = "" <;>
        rcases f with _ | fv <;> rcases c with _ | cv <;>
        simp [Retrohunt.get_jobs, reqKeys, encodeParams, hj]
  · intro s jid l c tr
    rcases jid with _ | j
    · rcases l with _ | lv <;> rcases c with _ | cv <;>
        simp [Retrohunt.get_jobs, reqKeys, encodeParams]
    · by_cases hj : j = "" <;>
        rcases l with _ | lv <;> rcases c with _ | cv <;>
        simp [Retrohunt.get_jobs, reqKeys, encodeParams, hj]
  · intro s jid l f tr
    rcases jid with _ | j
    · rcases l with _ | lv <;> rcases f with _ | fv <;>
        simp [Retrohunt.get_jobs, reqKeys, encodeParams]
    · by_cases hj : j = "" <;>
        rcases l with _ | lv <;> rcases f with _ | fv <;>
        simp [Retrohunt.get_jobs, reqKeys, encodeParams, hj]
  · intro s gid rel c tr
    rcases c with _ | cv <;> simp [Accounts.get_relationship, reqKeys, encodeParams]
  · intro s gid rel l tr
    rcases l with _ | lv <;> simp [Accounts.get_relationship, reqKeys, encodeParams]

/-- C5 (amended): in the collection listings, `get_rulesets` and `get_jobs`
include supplied `limit`, `order`, `cursor` under those names but send the
filter argument under the key `fltr`; `get_notifications` builds its params
dict without passing it to the request, so its collection listing sends no
query parameters at all. -/
theorem supplied_params_actual_encoding :
    (∀ s lv fv ov cv tr,
      (Livehunt.get_rulesets s none (some lv) (some fv) (some ov) (some cv) tr).fst.map
          (fun r => r.params)
        = [[("limit", lv), ("fltr", fv), ("order", ov), ("cursor", cv)]])
    ∧ (∀ s lv fv cv tr,
      (Retrohunt.get_jobs s none (some lv) (some fv) (some cv) tr).fst.map (fun r => r.params)
        = [[("limit", lv), ("fltr", fv), ("cursor", cv)]])
    ∧ (∀ s lv fv cv tr,
      (Livehunt.get_notifications s none (some lv) (some fv) (some cv) tr).fst.map
          (fun r => r.params)
        = [[]]) :=
  ⟨fun _ _ _ _ _ _ => rfl, fun _ _ _ _ _ => rfl, fun _ _ _ _ _ => rfl⟩

/-- C5 counterexample: `get_notifications` called with a supplied limit issues
a request with no query parameters at all, and `get_rulesets` called with a
supplied filter sends it under the key `fltr`, so no `filter` key appears. -/
theorem listing_params_counterexample :
    "limit" ∉ reqKeys (Livehunt.get_notifications lhSession0 none (some "5") none none tr200).fst
    ∧ (Livehunt.get_notifications lhSession0 none (some "5") none none tr200).fst.map
        (fun r => r.params) = [[]]
    ∧ "filter" ∉ reqKeys (Livehunt.get_rulesets lhSession0 none none (some "x") none none tr200).fst
    ∧ reqKeys (Livehunt.get_rulesets lhSession0 none none (some "x") none none tr200).fst
        = ["fltr"] :=
  ⟨by decide, rfl, by decide, by decide⟩

/-- C6 (amended): every Retrohunt wrapper sends its request to
`<base>/Retrohunt_jobs[...]` with a capital R, exactly as written in the
source, where the constructor sets the base URL to
`https://www.virustotal.com/api/v3/intelligence`. -/
theorem retrohunt_request_urls :
    (∀ k p, (Retrohunt.init k p).map (fun s => s.base_url)
        = Except.ok "https://www.virustotal.com/api/v3/intelligence")
    ∧ (∀ s l f c tr, (Retrohunt.get_jobs s none l f c tr).fst.map (fun r => r.url)
        = [s.base_url ++ "/Retrohunt_jobs"])
    ∧ (∀ s l f c tr j, j ≠ "" →
        (Retrohunt.get_jobs s (some j) l f c tr).fst.map (fun r => r.url)
          = [s.base_url ++ "/Retrohunt_jobs/" ++ j])
    ∧ (∀ s d tr, (Retrohunt.create_job s d tr).fst.map (fun r => r.url)
        = [s.base_url ++ "/Retrohunt_jobs"])
    ∧ (∀ s j tr, (Retrohunt.delete_job s j tr).fst.map (fun r => r.url)
        = [s.base_url ++ "/Retrohunt_jobs/" ++ j])
    ∧ (∀ s j tr, (Retrohunt.abort_job s j tr).fst.map (fun r => r.url)
        = [s.base_url ++ "/Retrohunt_jobs/" ++ j ++ "/abort"])
    ∧ (∀ s j tr, (Retrohunt.get_matching_files s j tr).fst.map (fun r => r.url)
        = [s.base_url ++ "/Retrohunt_jobs/" ++ j ++ "/matching_files"]) := by
  refine ⟨fun k p => rfl, fun s l f c tr => rfl, ?_, fun s d tr => rfl,
         fun s j tr => rfl, fun s j tr => rfl, fun s j tr => rfl⟩
  intro s l f c tr j hj
  simp [Retrohunt.get_jobs, hj]

/-- Witness for `retrohunt_request_urls`: the single-job URL at a concrete ID. -/
theorem retrohunt_request_urls_witness :
    (Retrohunt.get_jobs rhSession0 (some "j1") none none none tr200).fst.map (fun r => r.url)
      = ["https://www.virustotal.com/api/v3/intelligence/Retrohunt_jobs/j1"] := by
  have h := retrohunt_request_urls.2.2.1 rhSession0 none none none tr200 "j1" (by decide)
  exact h.trans (by decide)

/-- C6 counterexample: the single-job request URL uses `Retrohunt_jobs` with a
capital R, so it is not of the claimed form `/intelligence/retrohunt_jobs...`. -/
theorem retrohunt_path_capitalization_counterexample :
    (Retrohunt.get_jobs rhSession0 (some "j") none none none tr200).fst.map (fun r => r.url)
      = ["https://www.virustotal.com/api/v3/intelligence/Retrohunt_jobs/j"]
    ∧ List.isPrefixOf "https://www.virustotal.com/api/v3/intelligence/retrohunt_jobs".toList
        "https://www.virustotal.com/api/v3/intelligence/Retrohunt_jobs/j".toList = false :=
  ⟨by decide, by decide⟩

/-- C7: on a 200 response, `get_zip` issues exactly one request, writes the
file `output_dir ++ zip_id ++ ".zip"` as a sequence of non-empty chunks of at
most 1024 bytes, each write followed by a flush, and the bytes written are
exactly the response body bytes in order; the file write is the only side
effect besides that one request. -/
theorem get_zip_streams_exact_bytes (s : Session) (zip_id output_dir : String)
    (resp : HttpResponse) (h : resp.status_code = 200) :
    ZipFiles.get_zip s zip_id output_dir (fun _ => TransportResult.ok resp)
      = ([{ method := Method.get,
            url := s.base_url ++ "/zip_files/" ++ zip_id ++ "/download",
            params := [], headers := s.headers, body := none, proxies := s.proxies }],
         Outcome.wrote (output_dir ++ zip_id ++ ".zip") (zipEvents (iterContent resp.content)))
    ∧ writtenBytes (zipEvents (iterContent resp.content)) = resp.content
    ∧ wellFlushed (zipEvents (iterContent resp.content)) = true
    ∧ ∀ c ∈ iterContent resp.content, c.length ≤ 1024 ∧ c ≠ [] := by
  refine ⟨?_, ?_, wellFlushed_zipEvents _, iterContent_chunks _⟩
  · simp [ZipFiles.get_zip, h]
  · rw [writtenBytes_zipEvents, iterContent_flatten]

/-- Witness for `get_zip_streams_exact_bytes` at a concrete 200 response. -/
theorem get_zip_streams_exact_bytes_witness :
    (ZipFiles.get_zip zfSession0 "z1" "out/" (fun _ => TransportResult.ok resp200)).snd
      = Outcome.wrote "out/z1.zip" [] := by
  have h := (get_zip_streams_exact_bytes zfSession0 "z1" "out/" resp200 rfl).1
  have h2 : iterContent resp200.content = [] := by
    show iterContent [] = []
    simp only [iterContent]
  rw [h2] at h
  rw [h]
  decide

/-- C8 (amended): every wrapper taking a resource ID interpolates the ID into
the request path verbatim (Python `str.format` performs no URL escaping),
exactly once; `get_rulesets`, `get_notifications` and `get_jobs` do so only
for truthy (non-empty) IDs. -/
theorem id_interpolated_verbatim :
    (∀ key t tr, (file_feed (some key) t tr).fst.map (fun r => r.url)
        = ["https://www.virustotal.com/api/v3/feeds/files/" ++ t])
    ∧ (∀ s rid l f o c tr, rid ≠ "" →
        (Livehunt.get_rulesets s (some rid) l f o c tr).fst.map (fun r => r.url)
          = [s.base_url ++ "/hunting_rulesets/" ++ rid])
    ∧ (∀ s rid d tr, (Livehunt.update_ruleset s rid d tr).fst.map (fun r => r.url)
        = [s.base_url ++ "/hunting_rulesets/" ++ rid])
    ∧ (∀ s rid tr, (Livehunt.delete_ruleset s rid tr).fst.map (fun r => r.url)
        = [s.base_url ++ "/hunting_rulesets/" ++ rid])
    ∧ (∀ s nid l f c tr, nid ≠ "" →
        (Livehunt.get_notifications s (some nid) l f c tr).fst.map (fun r => r.url)
          = [s.base_url ++ "/hunting_notifications/" ++ nid])
    ∧ (∀ s jid l f c tr, jid ≠ "" →
        (Retrohunt.get_jobs s (some jid) l f c tr).fst.map (fun r => r.url)
          = [s.base_url ++ "/Retrohunt_jobs/" ++ jid])
    ∧ (∀ s jid tr, (Retrohunt.delete_job s jid tr).fst.map (fun r => r.url)
        = [s.base_url ++ "/Retrohunt_jobs/" ++ jid])
    ∧ (∀ s jid tr, (Retrohunt.abort_job s jid tr).fst.map (fun r => r.url)
        = [s.base_url ++ "/Retrohunt_jobs/" ++ jid ++ "/abort"])
    ∧ (∀ s jid tr, (Retrohunt.get_matching_files s jid tr).fst.map (fun r => r.url)
        = [s.base_url ++ "/Retrohunt_jobs/" ++ jid ++ "/matching_files"])
    ∧ (∀ s uid tr, (Accounts.info_user s uid tr).fst.map (fun r => r.url)
        = [s.base_url ++ "/users/" ++ uid])
    ∧ (∀ s gid tr, (Accounts.info_group s gid tr).fst.map (fun r => r.url)
        = [s.base_url ++ "/groups/" ++ gid])
    ∧ (∀ s gid rel l c tr, (Accounts.get_relationship s gid rel l c tr).fst.map (fun r => r.url)
        = [s.base_url ++ "/groups/" ++ gid ++ "/relationships/" ++ rel])
    ∧ (∀ s zid tr, (ZipFiles.info_zip s zid tr).fst.map (fun r => r.url)
        = [s.base_url ++ "/zip_files/" ++ zid])
    ∧ (∀ s zid tr, (ZipFiles.get_url s zid tr).fst.map (fun r => r.url)
        = [s.base_url ++ "/zip_files/" ++ zid ++ "/download_url"])
    ∧ (∀ s zid od tr, (ZipFiles.get_zip s zid od tr).fst.map (fun r => r.url)
        = [s.base_url ++ "/zip_files/" ++ zid ++ "/download"]) := by
  refine ⟨fun key t tr => rfl, ?_, fun s rid d tr => rfl, fun s rid tr => rfl, ?_, ?_,
         fun s jid tr => rfl, fun s jid tr => rfl, fun s jid tr => rfl,
         fun s uid tr => rfl, fun s gid tr => rfl, fun s gid rel l c tr => rfl,
         fun s zid tr => rfl, fun s zid tr => rfl, fun s zid od tr => rfl⟩
  · intro s rid l f o c tr h
    simp [Livehunt.get_rulesets, h]
  · intro s nid l f c tr h
    simp [Livehunt.get_notifications, h]
  · intro s jid l f c tr h
    simp [Retrohunt.get_jobs, h]

/-- Witness for `id_interpolated_verbatim` at a concrete ruleset ID. -/
theorem id_interpolated_verbatim_witness :
    (Livehunt.get_rulesets lhSession0 (some "r1") none none none none tr200).fst.map
        (fun r => r.url)
      = ["https://www.virustotal.com/api/v3/intelligence/hunting_rulesets/r1"] := by
  have h := id_interpolated_verbatim.2.1 lhSession0 "r1" none none none none tr200 (by decide)
  exact h.trans (by decide)

/-- C8 counterexample: an ID containing the reserved character `/` is
interpolated raw: the URL equals the unescaped concatenation and differs from
the URL built with the spec's URL-escaped segment (`a%2Fb`). -/
theorem id_not_url_escaped_counterexample :
    (Livehunt.delete_ruleset lhSession0 "a/b" tr200).fst.map (fun r => r.url)
      = ["https://www.virustotal.com/api/v3/intelligence/hunting_rulesets/a/b"]
    ∧ specUrlEscape "a/b" = "a%2Fb"
    ∧ (Livehunt.delete_ruleset lhSession0 "a/b" tr200).fst.map (fun r => r.url)
      ≠ ["https://www.virustotal.com/api/v3/intelligence/hunting_rulesets/"
          ++ specUrlEscape "a/b"] :=
  ⟨by decide, by decide, by decide⟩

/-- C9: for every session and string `v`, `delete_notification v` and
`delete_notifications v` issue the same DELETE request to
`<base>/hunting_notifications` with the same headers, body and proxies; the
only difference is the query parameter name, `id` versus `tag`.  The Livehunt
constructor sets that base URL to `.../api/v3/intelligence`. -/
theorem delete_notification_variants_equal (s : Session) (v : String)
    (tr tr' : Request → TransportResult) (k : String) (p : Option Proxies) :
    (Livehunt.delete_notification s v tr).fst
      = [{ method := Method.delete, url := s.base_url ++ "/hunting_notifications",
           params := [("id", v)], headers := s.headers, body := none, proxies := s.proxies }]
    ∧ (Livehunt.delete_notifications s v tr').fst
      = [{ method := Method.delete, url := s.base_url ++ "/hunting_notifications",
           params := [("tag", v)], headers := s.headers, body := none, proxies := s.proxies }]
    ∧ (Livehunt.init (some k) p).map (fun s2 => s2.base_url)
      = Except.ok "https://www.virustotal.com/api/v3/intelligence" :=
  ⟨rfl, rfl, rfl⟩

/-- C10: on a 200 response, `get_zip` writes to the path obtained by direct
string concatenation `output_dir ++ zip_id ++ ".zip"`, inserting no path
separator. -/
theorem get_zip_output_path_concat (s : Session) (zip_id output_dir : String)
    (resp : HttpResponse) (h : resp.status_code = 200) :
    (ZipFiles.get_zip s zip_id output_dir (fun _ => TransportResult.ok resp)).snd
      = Outcome.wrote (output_dir ++ zip_id ++ ".zip") (zipEvents (iterContent resp.content)) := by
  simp [ZipFiles.get_zip, h]

/-- Witness for `get_zip_output_path_concat`: with `output_dir = "downloads"`
and no trailing separator the directory name is fused into the file name. -/
theorem get_zip_output_path_concat_witness :
    (ZipFiles.get_zip zfSession0 "abc" "downloads" (fun _ => TransportResult.ok resp200)).snd
      = Outcome.wrote "downloadsabc.zip" [] := by
  have h := get_zip_output_path_concat zfSession0 "abc" "downloads" resp200 rfl
  have h2 : iterContent resp200.content = [] := by
    show iterContent [] = []
    simp only [iterContent]
  rw [h2] at h
  rw [h]
  decide
